import Mathlib

/-!
Verification of the threshold subsystem of icclim
(src/icclim/models/threshold.py) against its natural-language specification.

The embedding models:
  * the Operator registry and its tolerant lookup (external collaborator,
    modelled from the spec);
  * xarray DataArray values as a record of flattened rational data plus the
    attributes the threshold code reads (units, climatology_bounds, window,
    the percentiles coordinate, and whether the array is 0-dimensional);
  * the Threshold class: its constructor (with the classification chain of
    `__init__`), the `unit` property getter and setter, and `get_metadata`;
  * Python exceptions as an error type returned through Except;
  * the data-access side effects of construction as an explicit event trace
    (opening a dataset, reading a variable out of it), so that claims about
    "before any data is read" are statable.

Machine floats are modelled as rationals; the Python/numpy renderings the
metadata code interpolates into f-strings are modelled by executable
rendering functions over those rationals.
-/

namespace Icclim

/-- Python exceptions that the threshold subsystem can raise. -/
inductive PyErr
  | invalidIcclimArgument (msg : String)
  | notImplemented (msg : String)
  | keyError
  | valueError
  | typeError
  | attributeError
deriving DecidableEq, Repr

/-- A comparison operator descriptor: symbol, lookup aliases and the two
human-readable name templates (spec section 3: "one of a fixed enumeration
... each carries a symbol and two human-readable name templates"). -/
structure Operator where
  symbol : String
  aliases : List String
  standard_name : String
  long_name : String
deriving DecidableEq, Repr

namespace OperatorRegistry

/-- Modelled from the spec: the operator registry (icclim.models.operator,
not under src/) maps ">", ">=", "<", "<=", "==", "reach" to canonical
descriptors. -/
def GREATER : Operator :=
  { symbol := ">", aliases := [">", "gt", "greater"],
    standard_name := "greater", long_name := "greater than" }

def GREATER_OR_EQUAL : Operator :=
  { symbol := ">=", aliases := [">=", "ge", "gte", "greater_or_equal"],
    standard_name := "greater_or_equal", long_name := "greater or equal to" }

def LESS : Operator :=
  { symbol := "<", aliases := ["<", "lt", "less"],
    standard_name := "less", long_name := "less than" }

def LESS_OR_EQUAL : Operator :=
  { symbol := "<=", aliases := ["<=", "le", "lte", "less_or_equal"],
    standard_name := "less_or_equal", long_name := "less or equal to" }

def EQUAL : Operator :=
  { symbol := "==", aliases := ["==", "=", "eq", "equal"],
    standard_name := "equal", long_name := "equal to" }

/-- The fallback sentinel operator (spec glossary: "a fallback/no-op
comparison sentinel used when no operator could be resolved"). -/
def REACH : Operator :=
  { symbol := "reach", aliases := ["reach", "r"],
    standard_name := "reaching", long_name := "reaching" }

def operators : List Operator :=
  [GREATER, GREATER_OR_EQUAL, LESS, LESS_OR_EQUAL, EQUAL, REACH]

end OperatorRegistry

/-- Python str.lower() on the ASCII range. -/
def strLower (s : String) : String :=
  (s.toList.map Char.toLower).asString

namespace OperatorRegistry

/-- Modelled from the spec: "Operator lookup is case/alias tolerant" -
the query string is lowercased and matched against each operator's aliases;
an unresolved string yields none (the caller then falls back to REACH). -/
def lookup (s : String) : Option Operator :=
  operators.find? (fun o => o.aliases.contains (strLower s))

end OperatorRegistry

/-- Reserved unit marker for day-of-year percentile thresholds. Modelled from
the spec: reserved unit token "doy_per" (icclim.models.constants, not under
src/). -/
def DOY_PERCENTILE_UNIT : String := "doy_per"

/-- Reserved unit marker for period percentile thresholds. Modelled from the
spec: reserved unit token "period_per" (icclim.models.constants, not under
src/). -/
def PERIOD_PERCENTILE_UNIT : String := "period_per"

/-- An xarray DataArray as the threshold subsystem observes it: flattened
numeric data, whether the underlying numpy array is 0-dimensional, whether
the object is an xclim PercentileDataArray (with its "percentiles"
coordinate), and the attributes read by the threshold code. An attribute
dict entry is modelled as Option: none = key absent. The "units" attribute
value itself may be Python None, hence Option (Option String). -/
structure DataArray where
  data : List ℚ
  scalar0d : Bool
  is_percentile : Bool
  percentiles : List ℚ
  attrs_units : Option (Option String)
  attrs_climatology_bounds : Option (List String)
  attrs_window : Option Nat
  coords_threshold : Option (List ℚ)
deriving DecidableEq, Repr

/-- An in-memory xarray Dataset: named data variables. -/
structure PyDataset where
  vars : List (String × DataArray)
deriving DecidableEq, Repr

/-- Day-of-year versus whole-period percentile builder. -/
inductive PerKind
  | doy
  | period
deriving DecidableEq, Repr

/-- threshold_min_value may be a string (with unit) or a number. -/
inductive MinValue
  | str (s : String)
  | num (q : ℚ)
deriving DecidableEq, Repr

/-- The stored deferred percentile computation: in the source, a
functools partially-applied build_doy_per / build_period_per carrying
exactly these captured arguments. -/
structure DeferredPer where
  kind : PerKind
  per_val : ℚ
  base_period_time_range : Option (List String)
  interpolation : String
  only_leap_years : Bool
  window : Option Nat
  percentile_min_value : Option MinValue
deriving DecidableEq, Repr

/-- Threshold.value: either an eager labeled array or the stored deferred
percentile builder (a callable in the source). -/
inductive ThresholdValue
  | array (a : DataArray)
  | deferred (d : DeferredPer)
deriving DecidableEq, Repr

/-- The central Threshold entity (fields of the source class). -/
structure Threshold where
  operator : Operator
  value : ThresholdValue
  threshold_var_name : Option String
  additional_metadata : List String
  climatology_bounds : Option (List String)
  window : Nat
  only_leap_years : Bool
  interpolation : String
  base_period_time_range : Option (List String)
  threshold_min_value : Option MinValue
  is_doy_per_threshold : Bool
deriving DecidableEq, Repr

/-- Sampling frequency of the target data; the threshold code only reads its
units string (frequency logic is out of scope per the spec). -/
structure Frequency where
  units : String
deriving DecidableEq, Repr

/-- Data-access side effects of construction, as an explicit trace:
opening a dataset reference (lazy: no data is read), and reading the data
of one variable out of an open dataset. -/
inductive Event
  | openDataset (path : String)
  | readVariable (name : String)
deriving DecidableEq, Repr

/-! ## Rendering helpers

Models of the Python/numpy string renderings that `get_metadata`
interpolates into its f-strings, over the rational model of floats. -/

/-- Left-pad a digit string with zeros up to width k. -/
def padLeftZeros (s : String) (k : Nat) : String :=
  (List.replicate (k - s.length) '0').asString ++ s

/-- Drop trailing zero characters. -/
def stripTrailingZeros (s : String) : String :=
  ((s.toList.reverse.dropWhile (fun c => c == '0')).reverse).asString

/-- Split a character list on a separator character (the single-character
core of Python str.split). -/
def splitOnChar (c : Char) : List Char → List (List Char)
  | [] => [[]]
  | x :: xs =>
    let r := splitOnChar c xs
    if x == c then [] :: r
    else
      match r with
      | [] => [[x]]
      | y :: ys => (x :: y) :: ys

/-- Space-tokenize a string. -/
def tokenize (s : String) : List String :=
  (splitOnChar ' ' s.toList).map List.asString

/-- Whether pat occurs as a contiguous substring of the character list. -/
def listIsInfixOf (pat : List Char) : List Char → Bool
  | [] => pat.isEmpty
  | x :: xs => pat.isPrefixOf (x :: xs) || listIsInfixOf pat xs

/-- Whether pat occurs as a contiguous substring of s. -/
def strContains (s pat : String) : Bool :=
  listIsInfixOf pat.toList s.toList

/-- Python repr of a float, on the decimal rationals standing in for floats:
an integral value renders with a trailing ".0"; otherwise the (shortest)
decimal expansion is printed (k is the number of decimal digits, the least
exponent with den dividing 10^k; the scaled mantissa is num*(10^k/den)). -/
def pyFloatRepr (q : ℚ) : String :=
  if q.den = 1 then
    (if q.num < 0 then "-" else "") ++ toString q.num.natAbs ++ ".0"
  else
    match (List.range 18).find? (fun k => 10 ^ k % q.den = 0) with
    | some k =>
      let m : ℤ := q.num * ((10 ^ k / q.den : ℕ) : ℤ)
      (if m < 0 then "-" else "")
        ++ toString (m.natAbs / 10 ^ k) ++ "."
        ++ padLeftZeros (toString (m.natAbs % 10 ^ k)) k
    | none => toString q.num ++ "/" ++ toString q.den

/-- numpy rendering of one float element inside an array: integral values
print with a bare trailing dot ("2."), others like the float repr. -/
def npElemRepr (q : ℚ) : String :=
  if q.den = 1 then
    (if q.num < 0 then "-" else "") ++ toString q.num.natAbs ++ "."
  else pyFloatRepr q

/-- numpy rendering of a 1-dimensional float array: space-separated elements
in square brackets. -/
def npArrayRepr (l : List ℚ) : String :=
  "[" ++ String.intercalate " " (l.map npElemRepr) ++ "]"

/-- Python repr of a list of strings: quoted, comma-separated elements in
square brackets. -/
def pyStrListRepr (l : List String) : String :=
  "[" ++ String.intercalate ", " (l.map (fun s => "\x27" ++ s ++ "\x27")) ++ "]"

/-- f-string rendering of a str-or-None Python value. -/
def pyOptRepr : Option String → String
  | none => "None"
  | some s => s

/-- f-string rendering of the climatology_bounds attribute (a list of date
strings, or Python None when the attribute is absent). -/
def bdsRepr : Option (List String) → String
  | none => "None"
  | some l => pyStrListRepr l

/-- Rendering of attrs.get("window", ""): the int when present, else the
empty-string default. -/
def windowRepr : Option Nat → String
  | none => ""
  | some n => toString n

/-- np.format_float_positional(q, precision): positional decimal rendering
rounded to at most precision digits after the decimal point (fractional=True,
the numpy default), trailing zeros trimmed, decimal point always kept.
scaled is round(q * 10^precision), computed on the numerator and denominator
as the floor of (2*num*10^precision + den) / (2*den). -/
def formatFloatPositional (q : ℚ) (precision : Nat) : String :=
  let scaled : ℤ := Int.fdiv (2 * q.num * (10 ^ precision : ℕ) + (q.den : ℤ)) (2 * q.den)
  let m := scaled.natAbs
  (if scaled < 0 then "-" else "")
    ++ toString (m / 10 ^ precision) ++ "."
    ++ stripTrailingZeros (padLeftZeros (toString (m % 10 ^ precision)) precision)

/-- Number of significant digits appearing in a rendered decimal numeral:
digit characters with leading zeros ignored. -/
def sigDigitCount (s : String) : Nat :=
  ((s.toList.filter Char.isDigit).dropWhile (fun c => c == '0')).length

/-- self.value.values[()] as an f-string renders it: the scalar repr for a
0-dimensional array, the full array repr otherwise (indexing a 1-d array
with the empty tuple returns the array itself). -/
def itemRepr (a : DataArray) : String :=
  if a.scalar0d then pyFloatRepr (a.data.headD 0) else npArrayRepr a.data

/-- value.min().values[()] over the flattened data. -/
def listMin (l : List ℚ) : ℚ := l.foldl min (l.headD 0)

/-- value.max().values[()] over the flattened data. -/
def listMax (l : List ℚ) : ℚ := l.foldl max (l.headD 0)

/-! ## The unit property -/

/-- The unit property getter (threshold.py lines 61-65): None while the
value is still a deferred callable; otherwise the value's "units" attribute
(a KeyError if that attribute is absent). -/
def Threshold.unit (t : Threshold) : Except PyErr (Option String) :=
  match t.value with
  | .deferred _ => .ok none
  | .array a =>
    match a.attrs_units with
    | none => .error .keyError
    | some u => .ok u

/-- The unit property setter on the stored value (threshold.py lines 67-72):
a no-op on a callable; on an array, converts the data in place (through the
external conversion collaborator conv, xclim's convert_units_to) when the
array already carries a non-None unit, then labels the array with the new
unit. -/
def ThresholdValue.set_unit (v : ThresholdValue)
    (conv : DataArray → Option String → DataArray) (u : Option String) :
    ThresholdValue :=
  match v with
  | .deferred d => .deferred d
  | .array a =>
    let a1 := if (a.attrs_units.getD none).isSome then conv a u else a
    .array { a1 with attrs_units := some u }

/-- The unit property setter at the Threshold level: self.unit = u. -/
def Threshold.set_unit (t : Threshold)
    (conv : DataArray → Option String → DataArray) (u : Option String) :
    Threshold :=
  { t with value := t.value.set_unit conv u }

/-! ## Metadata synthesis -/

/-- One produced metadata mapping: standard_name and long_name always,
additional_metadata only when at least one provenance note exists. -/
structure MetaResult where
  standard_name : String
  long_name : String
  additional_metadata : Option String := none
deriving DecidableEq, Repr

/-- Final assembly step of get_metadata (threshold.py lines 216-219): attach
the parenthesized comma-joined provenance notes when any exist, and return
the result together with the mutated threshold (whose additional_metadata
list now holds notes). -/
def finishMeta (t : Threshold) (notes : List String) (sn ln : String) :
    Except PyErr (MetaResult × Threshold) :=
  .ok
    ({ standard_name := sn, long_name := ln,
       additional_metadata :=
         if notes.length > 0 then
           some ("(" ++ String.intercalate ", " notes ++ ")")
         else none },
     { t with additional_metadata := notes })

/-- Threshold.get_metadata (threshold.py lines 152-219). A deferred value
(a callable) has no .size, so the first branch raises AttributeError.
A size-1 value renders scalar-style names. A PercentileDataArray renders
day-of-year or period percentile names and appends a provenance note to
self.additional_metadata (the source mutates the list on every call).
Any other DataArray renders the literal element list when small, or the
min/max of the range via np.format_float_positional(_, 3) when it has 10 or
more elements. -/
def Threshold.get_metadata (t : Threshold) (src_freq : Frequency) :
    Except PyErr (MetaResult × Threshold) :=
  match t.value with
  | .deferred _ => .error .attributeError
  | .array a =>
    if a.data.length = 1 then
      match a.attrs_units with
      | none => .error .keyError
      | some u =>
        finishMeta t t.additional_metadata
          (t.operator.standard_name ++ "_" ++ itemRepr a ++ "_" ++ pyOptRepr u)
          (t.operator.long_name ++ " " ++ itemRepr a ++ " " ++ pyOptRepr u)
    else if a.is_percentile then
      let bds := bdsRepr a.attrs_climatology_bounds
      if t.is_doy_per_threshold then
        let dpl :=
          if a.percentiles.length = 1 then
            (pyFloatRepr (a.percentiles.headD 0) ++ "th day of year percentile",
             pyFloatRepr (a.percentiles.headD 0) ++ "th_doy_percentile")
          else
            (pyStrListRepr (a.percentiles.map (fun x => pyFloatRepr x ++ "th")),
             "_doy_percentiles")
        let note :=
          "day of year percentiles were computed on the " ++ bds
            ++ " period, with a " ++ windowRepr a.attrs_window ++ " "
            ++ src_freq.units ++ " window for each day of year"
        finishMeta t (t.additional_metadata ++ [note])
          (t.operator.standard_name ++ "_" ++ dpl.2)
          (t.operator.long_name ++ " " ++ dpl.1)
      else
        let dpl :=
          if a.percentiles.length = 1 then
            (pyFloatRepr (a.percentiles.headD 0) ++ "th period percentile",
             pyFloatRepr (a.percentiles.headD 0) ++ "th_period_percentile")
          else
            (pyStrListRepr (a.percentiles.map (fun x => pyFloatRepr x ++ "th"))
               ++ " period percentiles",
             "_period_percentiles")
        let note :=
          "period percentiles were computed on the " ++ bds ++ " period"
        finishMeta t (t.additional_metadata ++ [note])
          (t.operator.standard_name ++ "_" ++ dpl.2)
          (t.operator.long_name ++ " " ++ dpl.1)
    else
      match a.attrs_units with
      | none => .error .keyError
      | some u =>
        let display :=
          if a.data.length < 10 then
            npArrayRepr a.data ++ " " ++ pyOptRepr u
          else
            "per grid cell values between "
              ++ formatFloatPositional (listMin a.data) 3 ++ " " ++ pyOptRepr u
              ++ " and "
              ++ formatFloatPositional (listMax a.data) 3 ++ " " ++ pyOptRepr u
        finishMeta t t.additional_metadata
          (t.operator.standard_name ++ "_thresholds")
          (t.operator.long_name ++ " " ++ display)

/-! ## Construction -/

/-- The query argument of the constructor: None, a string, or an Operator. -/
inductive QueryArg
  | none
  | str (s : String)
  | op (o : Operator)
deriving DecidableEq, Repr

/-- The value argument of the constructor (ThresholdValueType):
None, a string, a number, a numeric sequence, an in-memory Dataset, or a
DataArray. -/
inductive ValueArg
  | none
  | str (s : String)
  | num (q : ℚ)
  | seq (l : List ℚ)
  | dataset (d : PyDataset)
  | dataarray (a : DataArray)
deriving DecidableEq, Repr

/-- All keyword arguments of Threshold.__init__ with their defaults. -/
structure ThresholdArgs where
  query : QueryArg := .none
  value : ValueArg := .none
  unit : Option String := Option.none
  threshold_var_name : Option String := Option.none
  climatology_bounds : Option (List String) := Option.none
  window : Nat := 5
  only_leap_years : Bool := false
  interpolation : String := "median_unbiased"
  base_period_time_range : Option (List String) := Option.none
  threshold_min_value : Option MinValue := Option.none
deriving Repr

/-- Parse a nonempty all-digit character list. -/
def digitsToNat (l : List Char) : Option Nat :=
  if l.isEmpty then Option.none
  else
    l.foldl
      (fun acc c =>
        match acc with
        | Option.none => Option.none
        | some n => if c.isDigit then some (10 * n + (c.toNat - 48)) else Option.none)
      (some 0)

/-- Python float() on a decimal numeral string, over the rational model. -/
def parseNum (s : String) : Option ℚ :=
  let cs := s.toList
  let neg := cs.headD ' ' == '-'
  let cs1 := if neg then cs.drop 1 else cs
  let core : Option ℚ :=
    match splitOnChar '.' cs1 with
    | [ip] => (digitsToNat ip).map (fun n => (n : ℚ))
    | [ip, fp] =>
      match digitsToNat ip, digitsToNat fp with
      | some a, some b => some ((a : ℚ) + (b : ℚ) / ((10 : ℚ) ^ fp.length))
      | _, _ => Option.none
    | _ => Option.none
  core.map (fun n => if neg then -n else n)

/-- Whether the numeral token carries a "th" ordinal suffix. -/
def hasThSuffix (s : String) : Bool :=
  "th".toList.isSuffixOf s.toList

/-- Modelled from the spec: read_string_threshold (pre-processing
collaborator, not under src/) parses the grammar
"<operator> <value> <unit>" into an (operator, unit, value) triple; the
value token may carry a "th" ordinal suffix (percentile queries). Only the
three-token fragment of the grammar, the one the claims quantify over, is
modelled; other shapes parse to none. -/
def read_string_threshold (q : String) : Option (String × String × ℚ) :=
  match tokenize q with
  | [op, v, u] =>
    let v1 := if hasThSuffix v then v.dropRight 2 else v
    match parseNum v1 with
    | some n => some (op, u, n)
    | Option.none => Option.none
  | _ => Option.none

/-- Modelled from the spec: is_dataset_path (pre-processing collaborator,
not under src/) decides whether a value "refers to an existing on-disk ...
dataset"; fs is the external store mapping paths to their datasets. -/
def is_dataset_path (fs : String → Option PyDataset) : ValueArg → Bool
  | .str s => (fs s).isSome
  | _ => false

/-- Modelled from the spec: is_number_sequence (icclim.utils, not under
src/): "value is a homogeneous numeric sequence". -/
def is_number_sequence : ValueArg → Bool
  | .seq _ => true
  | _ => false

/-- Modelled from the spec: read_threshold_DataArray (pre-processing
collaborator, not under src/) turns the extracted threshold variable into
the stored labeled array; modelled as the array itself, with the caller's
climatology bounds recorded in its attributes when provided. -/
def read_threshold_DataArray (a : DataArray) (_threshold_min_value : Option MinValue)
    (climatology_bounds : Option (List String)) (_unit : Option String) : DataArray :=
  { a with
    attrs_climatology_bounds :=
      match climatology_bounds with
      | some b => some b
      | Option.none => a.attrs_climatology_bounds }

/-- _check_threshold_var_name (threshold.py lines 222-229). -/
def check_threshold_var_name : Option String → Except PyErr Unit
  | Option.none =>
    .error (.invalidIcclimArgument
      ("When threshold is a Dataset, threshold_var_name must be given to "
        ++ "find the data_variable in the dataset."))
  | some _ => .ok ()

/-- Python float(value) on the constructor's value argument: which values
convert, and the exception class when they do not. -/
def valueToFloat : ValueArg → Except PyErr ℚ
  | .num q => .ok q
  | .str s =>
    match parseNum s with
    | some n => .ok n
    | Option.none => .error .valueError
  | .dataarray a =>
    if a.data.length = 1 then .ok (a.data.headD 0) else .error .typeError
  | _ => .error .typeError

/-- The eager DataArray built for a scalar value (threshold.py lines
128-131): a 0-dimensional array with a "threshold" coordinate and no units
attribute yet. -/
def scalarArray (q : ℚ) : DataArray :=
  { data := [q], scalar0d := true, is_percentile := false, percentiles := [],
    attrs_units := Option.none, attrs_climatology_bounds := Option.none,
    attrs_window := Option.none, coords_threshold := some [q] }

/-- The eager DataArray built for a numeric sequence (threshold.py lines
102-107): a 1-dimensional array whose "threshold" coordinate is the values
themselves. -/
def seqArray (l : List ℚ) : DataArray :=
  { data := l, scalar0d := false, is_percentile := false, percentiles := [],
    attrs_units := Option.none, attrs_climatology_bounds := Option.none,
    attrs_window := Option.none, coords_threshold := some l }

/-- The operator argument reaching OperatorRegistry.lookup: None, a string,
or already an Operator (which the registry's tolerant lookup returns
unchanged). -/
def lookupOperatorArg : QueryArg → Option Operator
  | .none => Option.none
  | .str s => OperatorRegistry.lookup s
  | .op o => some o

/-- The value-classification chain of Threshold.__init__ (threshold.py lines
92-136), returning the normalized value, the is_doy_per_threshold flag, and
the trace of data-access events. Branch order is the source's elif order:
dataset source, numeric sequence, doy marker unit, period marker unit,
single number, labeled array, else a "could not be built" error. -/
def classifyValue (fs : String → Option PyDataset) (args : ThresholdArgs)
    (unit : Option String) (value : ValueArg) :
    Except PyErr (ThresholdValue × Bool) × List Event :=
  if is_dataset_path fs value || (match value with | .dataset _ => true | _ => false) then
    let opened : Except PyErr PyDataset × List Event :=
      match value with
      | .dataset d => (.ok d, [])
      | .str s =>
        (match fs s with
         | some d => (.ok d, [.openDataset s])
         | Option.none => (.error .keyError, [.openDataset s]))
      | _ => (.error .typeError, [])
    match opened with
    | (.error e, ev) => (.error e, ev)
    | (.ok ds, ev) =>
      match check_threshold_var_name args.threshold_var_name with
      | .error e => (.error e, ev)
      | .ok _ =>
        let name := args.threshold_var_name.getD ""
        match ds.vars.lookup name with
        | Option.none => (.error .keyError, ev)
        | some a =>
          (.ok (.array (read_threshold_DataArray a args.threshold_min_value
                          args.climatology_bounds unit), false),
           ev ++ [.readVariable name])
  else if is_number_sequence value then
    match value with
    | .seq l => (.ok (.array (seqArray l), false), [])
    | _ => (.error .typeError, [])
  else if unit == some DOY_PERCENTILE_UNIT then
    match valueToFloat value with
    | .error e => (.error e, [])
    | .ok p =>
      (.ok (.deferred
         { kind := .doy, per_val := p,
           base_period_time_range := args.base_period_time_range,
           interpolation := args.interpolation,
           only_leap_years := args.only_leap_years,
           window := some args.window,
           percentile_min_value := args.threshold_min_value }, true), [])
  else if unit == some PERIOD_PERCENTILE_UNIT then
    match valueToFloat value with
    | .error e => (.error e, [])
    | .ok p =>
      (.ok (.deferred
         { kind := .period, per_val := p,
           base_period_time_range := args.base_period_time_range,
           interpolation := args.interpolation,
           only_leap_years := args.only_leap_years,
           window := Option.none,
           percentile_min_value := args.threshold_min_value }, false), [])
  else
    match value with
    | .num q => (.ok (.array (scalarArray q), false), [])
    | .dataarray a => (.ok (.array a, false), [])
    | _ => (.error (.notImplemented "Threshold could not be built."), [])

/-- Threshold.__init__ (threshold.py lines 74-150). When query is a string
and both value and unit are absent, the query is parsed into the
(operator, unit, value) triple; otherwise the query is the operator. The
value is then classified, the operator resolved through the tolerant
registry lookup with the REACH fallback, and the unit applied through the
unit setter. Returns the constructed Threshold (or the raised exception)
together with the data-access event trace. -/
def mkThreshold (conv : DataArray → Option String → DataArray)
    (fs : String → Option PyDataset) (args : ThresholdArgs) :
    Except PyErr Threshold × List Event :=
  let parsed : Except PyErr (QueryArg × Option String × ValueArg) :=
    match args.query, args.value, args.unit with
    | .str q, .none, Option.none =>
      (match read_string_threshold q with
       | some (o, u, n) => .ok (.str o, some u, .num n)
       | Option.none => .error .valueError)
    | q, v, u => .ok (q, u, v)
  match parsed with
  | .error e => (.error e, [])
  | .ok (operator, unit, value) =>
    match classifyValue fs args unit value with
    | (.error e, ev) => (.error e, ev)
    | (.ok (v, isdoy), ev) =>
      let t0 : Threshold :=
        { is_doy_per_threshold := isdoy,
          operator := (lookupOperatorArg operator).getD OperatorRegistry.REACH,
          value := v,
          threshold_var_name := args.threshold_var_name,
          additional_metadata := [],
          climatology_bounds := args.climatology_bounds,
          window := args.window,
          only_leap_years := args.only_leap_years,
          interpolation := args.interpolation,
          base_period_time_range := args.base_period_time_range,
          threshold_min_value := args.threshold_min_value }
      (.ok (t0.set_unit conv unit), ev)

/-! ## Deferred percentile resolution (external binding step) -/

/-- Exclude climatology samples below the optional numeric floor (spec 4.2:
"any underlying climatology sample below this floor is excluded before the
percentile is computed"). -/
def applyFloor (minVal : Option MinValue) (pool : List ℚ) : List ℚ :=
  match minVal with
  | some (.num m) => pool.filter (fun x => m ≤ x)
  | _ => pool

/-- Nearest-rank order statistic: the smallest pool element whose rank
covers the requested percentile (0-100); the rank condition
p * n <= count * 100 is decided on the percentile's numerator and
denominator (p.num * n <= count * 100 * p.den). -/
def percentileOf (pool : List ℚ) (p : ℚ) : ℚ :=
  match pool.filter
      (fun y => p.num * pool.length ≤
        (((pool.filter (fun z => z ≤ y)).length * 100 : ℕ) : ℤ) * p.den) with
  | [] => listMax pool
  | x :: xs => (x :: xs).foldl min x

/-- Modelled from the spec: build_period_per (generic_index_functions, not
under src/): "computes a single percentile value ... over the entire base
period as one pool; records climatology bounds in provenance"; the output
keeps the percentile coordinate and the units of the bound series. -/
def build_period_per (d : DeferredPer) (series : List ℚ)
    (series_units : Option String) (bounds : List String) : DataArray :=
  { data := [percentileOf (applyFloor d.percentile_min_value series) d.per_val],
    scalar0d := false, is_percentile := true, percentiles := [d.per_val],
    attrs_units := some series_units,
    attrs_climatology_bounds := some bounds,
    attrs_window := Option.none, coords_threshold := Option.none }

/-- Circular day-of-year distance on a 365-day calendar. -/
def doyDist (a b : Nat) : Nat :=
  min ((a + 365 - b) % 365) ((b + 365 - a) % 365)

/-- Modelled from the spec: build_doy_per (generic_index_functions, not
under src/): "computes one percentile value per calendar day-of-year ...
using a centered window of the given width around each day-of-year";
records climatology bounds and window in the output's provenance
attributes. The series carries (day-of-year, sample) pairs; a 365-day
calendar is modelled. -/
def build_doy_per (d : DeferredPer) (series : List (Nat × ℚ))
    (series_units : Option String) (bounds : List String) : DataArray :=
  let w := d.window.getD 5
  { data := (List.range 365).map (fun i =>
      let pool := (series.filter (fun p => 2 * doyDist p.1 (i + 1) + 1 ≤ w)).map Prod.snd
      percentileOf (applyFloor d.percentile_min_value pool) d.per_val),
    scalar0d := false, is_percentile := true, percentiles := [d.per_val],
    attrs_units := some series_units,
    attrs_climatology_bounds := some bounds,
    attrs_window := some w, coords_threshold := Option.none }

/-- Modelled from the spec: binding a deferred percentile threshold to a
concrete reference series (an external collaborator's responsibility)
evaluates the stored builder exactly once, replacing value by the resolved
percentile field; an already-eager threshold is unchanged. -/
def Threshold.resolve (t : Threshold) (series : List (Nat × ℚ))
    (series_units : Option String) (bounds : List String) : Threshold :=
  match t.value with
  | .deferred d =>
    { t with
      value := .array (match d.kind with
        | .doy => build_doy_per d series series_units bounds
        | .period => build_period_per d (series.map Prod.snd) series_units bounds) }
  | .array _ => t

/-! ## Shared concrete instances and result-extraction helpers -/

/-- A unit-conversion collaborator that leaves data unchanged (used to
instantiate the conv parameter in witnesses). -/
def idConv : DataArray → Option String → DataArray := fun a _ => a

/-- An external store with no datasets. -/
def emptyFs : String → Option PyDataset := fun _ => Option.none

/-- Daily sampling frequency. -/
def freqDay : Frequency := { units := "day" }

/-- A baseline scalar threshold (greater than 25, 0-d value) used as the
seed of the concrete instances below. -/
def baseThreshold : Threshold :=
  { operator := OperatorRegistry.GREATER, value := .array (scalarArray 25),
    threshold_var_name := Option.none, additional_metadata := [],
    climatology_bounds := Option.none, window := 5, only_leap_years := false,
    interpolation := "median_unbiased", base_period_time_range := Option.none,
    threshold_min_value := Option.none, is_doy_per_threshold := false }

/-- The long_name of a metadata synthesis outcome (empty on error). -/
def metaLongOf (x : Except PyErr (MetaResult × Threshold)) : String :=
  match x with
  | .ok (r, _) => r.long_name
  | .error _ => ""

/-- The standard_name of a metadata synthesis outcome (empty on error). -/
def metaStdOf (x : Except PyErr (MetaResult × Threshold)) : String :=
  match x with
  | .ok (r, _) => r.standard_name
  | .error _ => ""

/-- The additional_metadata entry of a metadata synthesis outcome. -/
def metaAddOf (x : Except PyErr (MetaResult × Threshold)) : Option String :=
  match x with
  | .ok (r, _) => r.additional_metadata
  | .error _ => Option.none

/-- How many provenance notes the threshold holds after a metadata
synthesis outcome (0 on error). -/
def notesLenOf (x : Except PyErr (MetaResult × Threshold)) : Nat :=
  match x with
  | .ok (_, t) => t.additional_metadata.length
  | .error _ => 0

/-- The threshold left behind by a metadata synthesis outcome (the fallback
on error). -/
def nextThreshold (fallback : Threshold) (x : Except PyErr (MetaResult × Threshold)) :
    Threshold :=
  match x with
  | .ok (_, t) => t
  | .error _ => fallback

/-- A concrete deferred period-percentile threshold. -/
def deferredPeriodEx : DeferredPer :=
  { kind := .period, per_val := 75, base_period_time_range := Option.none,
    interpolation := "median_unbiased", only_leap_years := false,
    window := Option.none, percentile_min_value := Option.none }

/-- A threshold still carrying the deferred builder. -/
def tDeferred : Threshold :=
  { baseThreshold with value := .deferred deferredPeriodEx }

/-- A resolved grid value labeled degC. -/
def aLabeled : DataArray :=
  { seqArray [2, 3, 4] with attrs_units := some (some "degC") }

/-- A resolved grid value with no units attribute at all. -/
def aUnlabeled : DataArray := seqArray [2, 3, 4]

/-- A degC-labeled scalar threshold (as built from "> 25 degC"). -/
def tScalar : Threshold :=
  { baseThreshold with
    value := .array { scalarArray 25 with attrs_units := some (some "degC") } }

/-! ## C10 -/

/-- C10: for every Threshold whose value is still a deferred percentile
(a callable), assigning to the unit property is a silent no-op: the
threshold (in particular its stored deferred value) is unchanged, no
conversion or labeling occurs, and the unit property still returns None
afterwards. -/
theorem C10_deferred_unit_set_noop (t : Threshold) (d : DeferredPer)
    (conv : DataArray → Option String → DataArray) (u : Option String)
    (hv : t.value = .deferred d) :
    t.set_unit conv u = t ∧ (t.set_unit conv u).unit = .ok Option.none := by
  have hval : t.value.set_unit conv u = t.value := by
    rw [hv]; rfl
  constructor
  · show { t with value := t.value.set_unit conv u } = t
    rw [hval]
  · show Threshold.unit { t with value := t.value.set_unit conv u } = .ok Option.none
    rw [hval]
    simp only [Threshold.unit, hv]

/-- C10 witness: the no-op at a concrete deferred threshold and unit. -/
theorem C10_deferred_unit_set_noop_witness :
    tDeferred.set_unit idConv (some "degC") = tDeferred ∧
      (tDeferred.set_unit idConv (some "degC")).unit = .ok Option.none :=
  C10_deferred_unit_set_noop tDeferred deferredPeriodEx idConv (some "degC") rfl

/-! ## C5 -/

/-- C5: the unit property is None while the value is a still-deferred
percentile; once the deferred value is resolved against a unit-bearing
series the unit is defined (the series unit); setting the unit on a value
that already carries a unit converts the value in place (through the
conversion collaborator) to the new unit; setting it on a value with no
unit merely labels the value with that unit without converting. -/
theorem C5_unit_property :
    (∀ (t : Threshold) (d : DeferredPer), t.value = .deferred d →
       t.unit = .ok Option.none) ∧
    (∀ (t : Threshold) (d : DeferredPer) (series : List (Nat × ℚ)) (u : String)
       (bounds : List String), t.value = .deferred d →
       (t.resolve series (some u) bounds).unit = .ok (some u)) ∧
    (∀ (t : Threshold) (a : DataArray) (conv : DataArray → Option String → DataArray)
       (u : Option String) (u0 : String), t.value = .array a →
       a.attrs_units = some (some u0) →
       (t.set_unit conv u).value = .array { conv a u with attrs_units := some u }) ∧
    (∀ (t : Threshold) (a : DataArray) (conv : DataArray → Option String → DataArray)
       (u : Option String), t.value = .array a →
       a.attrs_units.getD Option.none = Option.none →
       (t.set_unit conv u).value = .array { a with attrs_units := some u }) := by
  refine ⟨?_, ?_, ?_, ?_⟩
  · intro t d hv
    simp only [Threshold.unit, hv]
  · intro t d series u bounds hv
    cases hk : d.kind <;>
      simp [Threshold.resolve, hv, hk, build_doy_per, build_period_per, Threshold.unit]
  · intro t a conv u u0 hv hu
    simp [Threshold.set_unit, ThresholdValue.set_unit, hv, hu]
  · intro t a conv u hv hu
    simp [Threshold.set_unit, ThresholdValue.set_unit, hv, hu]

/-- C5 witness: all four parts at concrete inputs: a deferred threshold, its
resolution against a degC series, and setter calls on a labeled and on an
unlabeled grid value. -/
theorem C5_unit_property_witness :
    tDeferred.unit = .ok Option.none ∧
      (tDeferred.resolve [(1, 10), (2, 20)] (some "degC") ["1971", "2000"]).unit
        = .ok (some "degC") ∧
      (({ baseThreshold with value := .array aLabeled }).set_unit idConv
          (some "K")).value = .array { idConv aLabeled (some "K") with
            attrs_units := some (some "K") } ∧
      (({ baseThreshold with value := .array aUnlabeled }).set_unit idConv
          (some "K")).value = .array { aUnlabeled with attrs_units := some (some "K") } :=
  ⟨C5_unit_property.1 tDeferred deferredPeriodEx rfl,
   C5_unit_property.2.1 tDeferred deferredPeriodEx [(1, 10), (2, 20)] "degC"
     ["1971", "2000"] rfl,
   C5_unit_property.2.2.1 { baseThreshold with value := .array aLabeled } aLabeled
     idConv (some "K") "degC" rfl rfl,
   C5_unit_property.2.2.2 { baseThreshold with value := .array aUnlabeled } aUnlabeled
     idConv (some "K") rfl rfl⟩

/-! ## C4 -/

/-- C4: for every input operator token, including unrecognized or malformed
strings, Threshold construction never fails on the operator: construction
succeeds and the stored operator is the tolerant lookup's answer with the
REACH sentinel as fallback when the string is unresolved; and the lookup is
case tolerant (tokens equal up to lowercasing resolve identically, and any
alias is matched). -/
theorem C4_operator_never_fails
    (conv : DataArray → Option String → DataArray)
    (fs : String → Option PyDataset) (s : String) (q : ℚ) :
    (∃ t, mkThreshold conv fs { query := .str s, value := .num q } = (.ok t, []) ∧
       t.operator = (OperatorRegistry.lookup s).getD OperatorRegistry.REACH) ∧
    (∀ s1 s2 : String, strLower s1 = strLower s2 →
       OperatorRegistry.lookup s1 = OperatorRegistry.lookup s2) := by
  constructor
  · exact ⟨_, rfl, rfl⟩
  · intro s1 s2 h
    simp only [OperatorRegistry.lookup, h]

/-- C4 witness: construction at the malformed operator token "bogus"
resolves to REACH, and "GT" resolves like "gt". -/
theorem C4_operator_never_fails_witness :
    (∃ t, mkThreshold idConv emptyFs { query := .str "bogus", value := .num 25 }
        = (.ok t, []) ∧
       t.operator = (OperatorRegistry.lookup "bogus").getD OperatorRegistry.REACH) ∧
      OperatorRegistry.lookup "GT" = OperatorRegistry.lookup "gt" :=
  ⟨(C4_operator_never_fails idConv emptyFs "bogus" 25).1,
   (C4_operator_never_fails idConv emptyFs "bogus" 25).2 "GT" "gt" (by decide)⟩

/-! ## C6 -/

/-- The constructor hands (operator, unit, value) to the classification
chain after possibly parsing the query; this flag marks the parse case
(query a string, value and unit absent), in which the classified value is
the parser's output rather than the value argument. -/
def parseTriggered (args : ThresholdArgs) : Bool :=
  match args.query, args.value, args.unit with
  | .str _, .none, Option.none => true
  | _, _, _ => false

/-- A value argument matching none of the accepted shapes of the
classification chain: not a dataset reference (an in-memory Dataset or a
string naming an existing dataset), not a numeric sequence, not combined
with a reserved percentile-unit marker, not a single number, not a labeled
array. -/
def matchesNoShape (fs : String → Option PyDataset) (v : ValueArg)
    (u : Option String) : Prop :=
  match v with
  | .none => u ≠ some DOY_PERCENTILE_UNIT ∧ u ≠ some PERIOD_PERCENTILE_UNIT
  | .str s => fs s = Option.none ∧ u ≠ some DOY_PERCENTILE_UNIT
      ∧ u ≠ some PERIOD_PERCENTILE_UNIT
  | _ => False

/-- C6: for every input value that matches none of the accepted shapes,
Threshold construction fails immediately and synchronously with the
"could not be built" construction error: the error is the call's return,
and no side effect (no data-access event) happened first. -/
theorem C6_unrecognized_shape_raises
    (conv : DataArray → Option String → DataArray)
    (fs : String → Option PyDataset) (args : ThresholdArgs)
    (hpt : parseTriggered args = false)
    (hns : matchesNoShape fs args.value args.unit) :
    mkThreshold conv fs args =
      (.error (.notImplemented "Threshold could not be built."), []) := by
  obtain ⟨q, v, u, tvn, cb, w, oly, itp, bptr, tmv⟩ := args
  cases v with
  | none =>
    simp only [matchesNoShape, ne_eq] at hns
    cases q with
    | str s =>
      cases u with
      | none => simp [parseTriggered] at hpt
      | some x =>
        simp only [Option.some.injEq] at hns
        simp [mkThreshold, classifyValue, is_dataset_path, is_number_sequence,
          valueToFloat, hns.1, hns.2]
    | none =>
      simp [mkThreshold, classifyValue, is_dataset_path, is_number_sequence,
        valueToFloat, hns.1, hns.2]
    | op o =>
      simp [mkThreshold, classifyValue, is_dataset_path, is_number_sequence,
        valueToFloat, hns.1, hns.2]
  | str s =>
    simp only [matchesNoShape, ne_eq] at hns
    cases q <;>
      simp [mkThreshold, classifyValue, is_dataset_path, is_number_sequence,
        valueToFloat, hns.1, hns.2.1, hns.2.2]
  | num x => simp [matchesNoShape] at hns
  | seq l => simp [matchesNoShape] at hns
  | dataset d => simp [matchesNoShape] at hns
  | dataarray a => simp [matchesNoShape] at hns

/-- C6 witness: a string value that names no existing dataset, with an
ordinary unit, fails with the "could not be built" error. -/
theorem C6_unrecognized_shape_raises_witness :
    mkThreshold idConv emptyFs
        { query := .op OperatorRegistry.GREATER, value := .str "not-a-dataset",
          unit := some "degC" } =
      (.error (.notImplemented "Threshold could not be built."), []) :=
  C6_unrecognized_shape_raises idConv emptyFs
    { query := .op OperatorRegistry.GREATER, value := .str "not-a-dataset",
      unit := some "degC" } (by decide) ⟨rfl, by decide, by decide⟩

/-! ## C1 -/

/-- C1: for every Threshold constructed with a dataset-sourced value (an
on-disk dataset path or an in-memory Dataset) and with threshold_var_name
absent, construction fails with the InvalidIcclimArgumentError configuration
error, and the failure occurs before any data is read from the dataset:
the event trace holds no variable read (at most the lazy open of the
dataset reference). -/
theorem C1_dataset_source_requires_var_name
    (conv : DataArray → Option String → DataArray)
    (fs : String → Option PyDataset) (args : ThresholdArgs)
    (hsrc : (∃ d, args.value = .dataset d) ∨
      (∃ s, args.value = .str s ∧ (fs s).isSome))
    (hname : args.threshold_var_name = Option.none) :
    ∃ ev, mkThreshold conv fs args =
        (.error (.invalidIcclimArgument
          ("When threshold is a Dataset, threshold_var_name must be given to "
            ++ "find the data_variable in the dataset.")), ev) ∧
      ∀ n, Event.readVariable n ∉ ev := by
  obtain ⟨q, v, u, tvn, cb, w, oly, itp, bptr, tmv⟩ := args
  simp only at hsrc hname
  subst hname
  rcases hsrc with ⟨d, hd⟩ | ⟨s, hs, hfs⟩
  · subst hd
    refine ⟨[], ?_, by simp⟩
    cases q <;>
      simp [mkThreshold, classifyValue, is_dataset_path, check_threshold_var_name]
  · subst hs
    obtain ⟨d, hd⟩ := Option.isSome_iff_exists.mp hfs
    refine ⟨[.openDataset s], ?_, by simp⟩
    cases q <;>
      simp [mkThreshold, classifyValue, is_dataset_path, check_threshold_var_name, hd]

/-- C1 witness: an in-memory Dataset value without threshold_var_name fails
with the configuration error and an event trace without variable reads. -/
theorem C1_dataset_source_requires_var_name_witness :
    ∃ ev, mkThreshold idConv emptyFs
        { query := .op OperatorRegistry.GREATER,
          value := .dataset { vars := [("tas_per", aLabeled)] } } =
        (.error (.invalidIcclimArgument
          ("When threshold is a Dataset, threshold_var_name must be given to "
            ++ "find the data_variable in the dataset.")), ev) ∧
      ∀ n, Event.readVariable n ∉ ev :=
  C1_dataset_source_requires_var_name idConv emptyFs
    { query := .op OperatorRegistry.GREATER,
      value := .dataset { vars := [("tas_per", aLabeled)] } }
    (Or.inl ⟨{ vars := [("tas_per", aLabeled)] }, rfl⟩) rfl

/-! ## C8 -/

/-- C8: for every supported query string "<op> <number> <unit>" (three
space-free tokens, a recognized operator token, a parseable number token
with no ordinal suffix, a unit that is not a reserved percentile marker),
constructing a Threshold from the query and reading back .operator, .unit
and the scalar value reproduces the original operator, unit and number. -/
theorem C8_query_round_trip
    (conv : DataArray → Option String → DataArray)
    (fs : String → Option PyDataset)
    (opS numS unitS : String) (op : Operator) (n : ℚ)
    (hsplit : tokenize (opS ++ " " ++ numS ++ " " ++ unitS) = [opS, numS, unitS])
    (hop : OperatorRegistry.lookup opS = some op)
    (hth : hasThSuffix numS = false)
    (hnum : parseNum numS = some n)
    (hu1 : unitS ≠ DOY_PERCENTILE_UNIT)
    (hu2 : unitS ≠ PERIOD_PERCENTILE_UNIT) :
    ∃ t, mkThreshold conv fs
        { query := .str (opS ++ " " ++ numS ++ " " ++ unitS) } = (.ok t, []) ∧
      t.operator = op ∧
      t.unit = .ok (some unitS) ∧
      ∃ a, t.value = .array a ∧ a.data = [n] := by
  refine ⟨{ is_doy_per_threshold := false,
            operator := (OperatorRegistry.lookup opS).getD OperatorRegistry.REACH,
            value := .array { scalarArray n with attrs_units := some (some unitS) },
            threshold_var_name := Option.none, additional_metadata := [],
            climatology_bounds := Option.none, window := 5,
            only_leap_years := false, interpolation := "median_unbiased",
            base_period_time_range := Option.none,
            threshold_min_value := Option.none }, ?_, ?_, ?_, ?_⟩
  · simp [mkThreshold, read_string_threshold, hsplit, hth, hnum, classifyValue,
      is_dataset_path, is_number_sequence, hu1, hu2, Threshold.set_unit,
      ThresholdValue.set_unit, scalarArray, lookupOperatorArg]
  · simp [hop]
  · rfl
  · exact ⟨_, rfl, rfl⟩

/-- C8 witness: the query "> 25 degC" round-trips to the GREATER operator,
unit degC and the number 25. -/
theorem C8_query_round_trip_witness :
    ∃ t, mkThreshold idConv emptyFs { query := .str ("> 25 degC") } = (.ok t, []) ∧
      t.operator = OperatorRegistry.GREATER ∧
      t.unit = .ok (some "degC") ∧
      ∃ a, t.value = .array a ∧ a.data = [25] := by
  have h := C8_query_round_trip idConv emptyFs ">" "25" "degC"
    OperatorRegistry.GREATER 25 (by decide) (by decide) (by decide) (by decide)
    (by decide) (by decide)
  exact h

/-! ## C9 -/

/-- C9: is_doy_per_threshold is set at construction and never mutated
afterwards: the unit setter, metadata synthesis (which does mutate the
threshold's note list) and deferred-value resolution all leave the flag
unchanged. -/
theorem C9_is_doy_flag_immutable :
    (∀ (t : Threshold) (conv : DataArray → Option String → DataArray)
       (u : Option String),
       (t.set_unit conv u).is_doy_per_threshold = t.is_doy_per_threshold) ∧
    (∀ (t t2 : Threshold) (f : Frequency) (r : MetaResult),
       t.get_metadata f = .ok (r, t2) →
       t2.is_doy_per_threshold = t.is_doy_per_threshold) ∧
    (∀ (t : Threshold) (series : List (Nat × ℚ)) (su : Option String)
       (b : List String),
       (t.resolve series su b).is_doy_per_threshold = t.is_doy_per_threshold) := by
  refine ⟨fun t conv u => rfl, ?_, ?_⟩
  · intro t t2 f r h
    cases hv : t.value with
    | deferred d =>
      rw [Threshold.get_metadata, hv] at h
      exact absurd h (by simp)
    | array a =>
      rw [Threshold.get_metadata, hv] at h
      simp only [finishMeta] at h
      iterate 8 (all_goals try split at h)
      all_goals
        first
        | exact Except.noConfusion h
        | (injection h with h3
           injection h3 with h4 h5
           subst h5
           rfl)
  · intro t series su b
    cases hv : t.value <;> simp [Threshold.resolve, hv]

/-- C9 witness: flag preservation at a concrete threshold, through the unit
setter, a successful get_metadata call, and resolution. -/
theorem C9_is_doy_flag_immutable_witness :
    ((tScalar.set_unit idConv (some "K")).is_doy_per_threshold
        = tScalar.is_doy_per_threshold) ∧
      ((nextThreshold tScalar (tScalar.get_metadata freqDay)).is_doy_per_threshold
        = tScalar.is_doy_per_threshold) ∧
      ((tScalar.resolve [] (some "degC") []).is_doy_per_threshold
        = tScalar.is_doy_per_threshold) :=
  ⟨C9_is_doy_flag_immutable.1 tScalar idConv (some "K"),
   C9_is_doy_flag_immutable.2.1 tScalar
     (nextThreshold tScalar (tScalar.get_metadata freqDay)) freqDay
     { standard_name := "greater_25.0_degC", long_name := "greater than 25.0 degC" }
     (by rfl),
   C9_is_doy_flag_immutable.2.2 tScalar [] (some "degC") []⟩

/-! ## C2 -/

/-- A resolved period-percentile value holding the 90th and 95th
percentiles. -/
def aPeriodPer : DataArray :=
  { data := [90, 95], scalar0d := false, is_percentile := true,
    percentiles := [90, 95], attrs_units := some (some "degC"),
    attrs_climatology_bounds := some ["1971-01-01", "2000-12-31"],
    attrs_window := Option.none, coords_threshold := Option.none }

/-- A threshold carrying that resolved period percentile. -/
def tPeriodPer : Threshold := { baseThreshold with value := .array aPeriodPer }

/-- C2 counterexample: on a resolved period-percentile threshold the first
get_metadata call leaves one provenance note, the second call leaves two
(the note list accumulates), and the second call's additional_metadata
string is strictly longer than the first call's - contradicting the claim
that a second call leaves no more entries (nor a longer string) than a
single call. -/
theorem C2_metadata_not_idempotent_counterexample :
    notesLenOf (Threshold.get_metadata tPeriodPer freqDay) = 1 ∧
      notesLenOf (Threshold.get_metadata
        (nextThreshold tPeriodPer (Threshold.get_metadata tPeriodPer freqDay))
        freqDay) = 2 ∧
      (pyOptRepr (metaAddOf (Threshold.get_metadata
          (nextThreshold tPeriodPer (Threshold.get_metadata tPeriodPer freqDay))
          freqDay))).length >
        (pyOptRepr (metaAddOf (Threshold.get_metadata tPeriodPer freqDay))).length := by
  decide

/-- C2 as amended: calling get_metadata twice on the same resolved
threshold yields identical standard_name and long_name, and the two calls
append identical batches of provenance notes; for a percentile-valued
threshold of size other than 1 each batch holds exactly one note, so the
second call leaves strictly more entries than a single call (accumulation
is additive, not idempotent). -/
theorem C2_names_stable_notes_accumulate
    (t : Threshold) (a : DataArray) (f : Frequency) (r1 r2 : MetaResult)
    (t1 t2 : Threshold)
    (hv : t.value = .array a)
    (h1 : t.get_metadata f = .ok (r1, t1))
    (h2 : t1.get_metadata f = .ok (r2, t2)) :
    r2.standard_name = r1.standard_name ∧ r2.long_name = r1.long_name ∧
    ∃ δ, t1.additional_metadata = t.additional_metadata ++ δ ∧
      t2.additional_metadata = t1.additional_metadata ++ δ ∧
      (a.is_percentile = true → a.data.length ≠ 1 → δ.length = 1) := by
  rw [Threshold.get_metadata, hv] at h1
  dsimp only at h1
  by_cases hlen : a.data.length = 1
  · rw [if_pos hlen] at h1
    cases hu : a.attrs_units with
    | none => rw [hu] at h1; exact Except.noConfusion h1
    | some u =>
      rw [hu] at h1
      simp only [finishMeta] at h1
      injection h1 with h3
      injection h3 with hr1 ht1
      subst ht1
      rw [Threshold.get_metadata] at h2
      dsimp only at h2
      rw [hv] at h2
      dsimp only at h2
      rw [if_pos hlen, hu] at h2
      simp only [finishMeta] at h2
      injection h2 with h4
      injection h4 with hr2 ht2
      subst ht2
      subst hr1
      subst hr2
      refine ⟨rfl, rfl, [], by simp, by simp, fun _ hne => absurd hlen hne⟩
  · rw [if_neg hlen] at h1
    by_cases hp : a.is_percentile = true
    · rw [if_pos hp] at h1
      by_cases hd : t.is_doy_per_threshold = true
      · rw [if_pos hd] at h1
        simp only [finishMeta] at h1
        injection h1 with h3
        injection h3 with hr1 ht1
        subst ht1
        rw [Threshold.get_metadata] at h2
        dsimp only at h2
        rw [hv] at h2
        dsimp only at h2
        rw [if_neg hlen, if_pos hp, if_pos hd] at h2
        simp only [finishMeta] at h2
        injection h2 with h4
        injection h4 with hr2 ht2
        subst ht2
        subst hr1
        subst hr2
        exact ⟨rfl, rfl,
          ["day of year percentiles were computed on the "
             ++ bdsRepr a.attrs_climatology_bounds ++ " period, with a "
             ++ windowRepr a.attrs_window ++ " " ++ f.units
             ++ " window for each day of year"],
          rfl, by simp, fun _ _ => rfl⟩
      · rw [if_neg hd] at h1
        simp only [finishMeta] at h1
        injection h1 with h3
        injection h3 with hr1 ht1
        subst ht1
        rw [Threshold.get_metadata] at h2
        dsimp only at h2
        rw [hv] at h2
        dsimp only at h2
        rw [if_neg hlen, if_pos hp, if_neg hd] at h2
        simp only [finishMeta] at h2
        injection h2 with h4
        injection h4 with hr2 ht2
        subst ht2
        subst hr1
        subst hr2
        exact ⟨rfl, rfl,
          ["period percentiles were computed on the "
             ++ bdsRepr a.attrs_climatology_bounds ++ " period"],
          rfl, by simp, fun _ _ => rfl⟩
    · rw [if_neg hp] at h1
      cases hu : a.attrs_units with
      | none => rw [hu] at h1; exact Except.noConfusion h1
      | some u =>
        rw [hu] at h1
        simp only [finishMeta] at h1
        injection h1 with h3
        injection h3 with hr1 ht1
        subst ht1
        rw [Threshold.get_metadata] at h2
        dsimp only at h2
        rw [hv] at h2
        dsimp only at h2
        rw [if_neg hlen, if_neg hp, hu] at h2
        simp only [finishMeta] at h2
        injection h2 with h4
        injection h4 with hr2 ht2
        subst ht2
        subst hr1
        subst hr2
        refine ⟨rfl, rfl, [], by simp, by simp, fun hpp _ => absurd hpp hp⟩

/-- C2 amended witness: the two calls on the concrete period-percentile
threshold have identical names and append the same single note each. -/
theorem C2_names_stable_notes_accumulate_witness :
    (metaStdOf (Threshold.get_metadata
        (nextThreshold tPeriodPer (Threshold.get_metadata tPeriodPer freqDay)) freqDay)
      = metaStdOf (Threshold.get_metadata tPeriodPer freqDay)) ∧
      ∃ δ, (nextThreshold tPeriodPer
          (Threshold.get_metadata tPeriodPer freqDay)).additional_metadata
          = tPeriodPer.additional_metadata ++ δ ∧ δ.length = 1 := by
  have h := C2_names_stable_notes_accumulate tPeriodPer aPeriodPer freqDay
    (MetaResult.mk
      "greater__period_percentiles"
      ("greater than [\x2790.0th\x27, \x2795.0th\x27] period percentiles")
      (some ("(period percentiles were computed on the "
        ++ "[\x271971-01-01\x27, \x272000-12-31\x27] period)")))
    (MetaResult.mk
      "greater__period_percentiles"
      ("greater than [\x2790.0th\x27, \x2795.0th\x27] period percentiles")
      (some ("(period percentiles were computed on the "
        ++ "[\x271971-01-01\x27, \x272000-12-31\x27] period, "
        ++ "period percentiles were computed on the "
        ++ "[\x271971-01-01\x27, \x272000-12-31\x27] period)")))
    (nextThreshold tPeriodPer (Threshold.get_metadata tPeriodPer freqDay))
    (nextThreshold
      (nextThreshold tPeriodPer (Threshold.get_metadata tPeriodPer freqDay))
      (Threshold.get_metadata
        (nextThreshold tPeriodPer (Threshold.get_metadata tPeriodPer freqDay)) freqDay))
    rfl (by rfl) (by rfl)
  obtain ⟨hsn, hln, δ, hδ1, hδ2, hδ3⟩ := h
  exact ⟨by rfl, δ, hδ1, hδ3 rfl (by decide)⟩

/-! ## C3 -/

/-- A resolved period-percentile value of total size 1 (one percentile, no
further grid cells). -/
def aPeriodPer1 : DataArray :=
  { data := [17], scalar0d := false, is_percentile := true, percentiles := [75],
    attrs_units := some (some "degC"),
    attrs_climatology_bounds := some ["1971-01-01", "2000-12-31"],
    attrs_window := Option.none, coords_threshold := Option.none }

/-- A threshold carrying that size-1 resolved period percentile. -/
def tPeriodPer1 : Threshold := { baseThreshold with value := .array aPeriodPer1 }

/-- C3 counterexample: the size-1 branch of get_metadata is checked before
the percentile branch, so a resolved period percentile of total size 1 gets
scalar-style names (the literal value and unit), with no "period
percentile" text anywhere and no climatology-bounds note appended. -/
theorem C3_size_one_scalar_branch_counterexample :
    metaLongOf (Threshold.get_metadata tPeriodPer1 freqDay)
        = "greater than [17.] degC" ∧
      strContains (metaLongOf (Threshold.get_metadata tPeriodPer1 freqDay))
        "period percentile" = false ∧
      strContains (metaStdOf (Threshold.get_metadata tPeriodPer1 freqDay))
        "period_percentile" = false ∧
      notesLenOf (Threshold.get_metadata tPeriodPer1 freqDay) = 0 := by
  decide

/-- C3 as amended: for every Threshold whose value is a resolved period
percentile of total size other than 1 (a size-1 value takes the scalar
branch instead), get_metadata embeds "Nth period percentile" (or the list
of N's when several percentiles are present) in the names and appends an
additional-metadata note stating the climatology bounds only, with no
window and no dependence on the sampling frequency. -/
theorem C3_period_percentile_names
    (t : Threshold) (a : DataArray) (f : Frequency)
    (hv : t.value = .array a) (hp : a.is_percentile = true)
    (hd : t.is_doy_per_threshold = false) (hlen : a.data.length ≠ 1) :
    t.get_metadata f =
      finishMeta t (t.additional_metadata ++
        ["period percentiles were computed on the "
           ++ bdsRepr a.attrs_climatology_bounds ++ " period"])
        (t.operator.standard_name ++ "_"
          ++ (if a.percentiles.length = 1 then
                pyFloatRepr (a.percentiles.headD 0) ++ "th_period_percentile"
              else "_period_percentiles"))
        (t.operator.long_name ++ " "
          ++ (if a.percentiles.length = 1 then
                pyFloatRepr (a.percentiles.headD 0) ++ "th period percentile"
              else pyStrListRepr (a.percentiles.map (fun x => pyFloatRepr x ++ "th"))
                ++ " period percentiles")) := by
  have hd2 : ¬ t.is_doy_per_threshold = true := by simp [hd]
  rw [Threshold.get_metadata, hv]
  dsimp only
  rw [if_neg hlen, if_pos hp, if_neg hd2]
  by_cases hc : a.percentiles.length = 1
  · simp only [if_pos hc]
  · simp only [if_neg hc]

/-- C3 amended witness: the two-percentile period threshold from the C2
instances, with its exact names and bounds-only note. -/
theorem C3_period_percentile_names_witness :
    Threshold.get_metadata tPeriodPer freqDay =
      finishMeta tPeriodPer (tPeriodPer.additional_metadata ++
        ["period percentiles were computed on the "
           ++ bdsRepr aPeriodPer.attrs_climatology_bounds ++ " period"])
        (tPeriodPer.operator.standard_name ++ "_"
          ++ (if aPeriodPer.percentiles.length = 1 then
                pyFloatRepr (aPeriodPer.percentiles.headD 0) ++ "th_period_percentile"
              else "_period_percentiles"))
        (tPeriodPer.operator.long_name ++ " "
          ++ (if aPeriodPer.percentiles.length = 1 then
                pyFloatRepr (aPeriodPer.percentiles.headD 0) ++ "th period percentile"
              else pyStrListRepr
                  (aPeriodPer.percentiles.map (fun x => pyFloatRepr x ++ "th"))
                ++ " period percentiles")) :=
  C3_period_percentile_names tPeriodPer aPeriodPer freqDay rfl rfl rfl (by decide)

/-! ## C7 -/

/-- 1234.5678, entered in lowest terms so the rational model is explicit. -/
def qMinEx : ℚ := Rat.mk' 6172839 5000 (by norm_num) (by norm_num)

/-- A ten-element per-grid-cell threshold field labeled degC, with minimum
1234.5678 and maximum 3000. -/
def aGrid10 : DataArray :=
  { seqArray [qMinEx, 2000, 2100, 2200, 2300, 2400, 2500, 2600, 2700, 3000] with
    attrs_units := some (some "degC") }

/-- A threshold carrying that ten-element field. -/
def tGrid10 : Threshold := { baseThreshold with value := .array aGrid10 }

set_option maxRecDepth 8000 in
/-- C7 counterexample: on a 10-element value with minimum 1234.5678 the
long name renders the minimum as "1234.568" - np.format_float_positional
with precision 3 keeps 3 digits after the decimal point, so 7 significant
digits appear, not the 3 significant digits the claim states (a 3
significant-digit rendering could not contain the digit sequence 1234568). -/
theorem C7_three_significant_digits_counterexample :
    metaLongOf (Threshold.get_metadata tGrid10 freqDay)
        = "greater than per grid cell values between 1234.568 degC and 3000. degC" ∧
      formatFloatPositional (listMin aGrid10.data) 3 = "1234.568" ∧
      sigDigitCount "1234.568" = 7 ∧ ¬ sigDigitCount "1234.568" ≤ 3 := by
  decide

/-- C7 as amended: for every resolved non-percentile Threshold whose value
has size >= 10, get_metadata embeds only the minimum and maximum of the
value range, each rendered positionally with at most 3 digits after the
decimal point (np.format_float_positional(x, 3), not 3 significant digits),
with free text "per grid cell values between X and Y"; with between 2 and 9
elements the literal list of values is embedded instead (a single-element
value takes the scalar branch). -/
theorem C7_grid_range_metadata
    (t : Threshold) (a : DataArray) (f : Frequency) (u : Option String)
    (hv : t.value = .array a) (hp : a.is_percentile = false)
    (hu : a.attrs_units = some u) (hlen : 2 ≤ a.data.length) :
    t.get_metadata f =
      finishMeta t t.additional_metadata
        (t.operator.standard_name ++ "_thresholds")
        (t.operator.long_name ++ " "
          ++ (if a.data.length < 10 then
                npArrayRepr a.data ++ " " ++ pyOptRepr u
              else
                "per grid cell values between "
                  ++ formatFloatPositional (listMin a.data) 3 ++ " " ++ pyOptRepr u
                  ++ " and "
                  ++ formatFloatPositional (listMax a.data) 3 ++ " " ++ pyOptRepr u)) := by
  have hlen1 : ¬ a.data.length = 1 := by omega
  have hp2 : ¬ a.is_percentile = true := by simp [hp]
  rw [Threshold.get_metadata, hv]
  dsimp only
  rw [if_neg hlen1, if_neg hp2, hu]

/-- C7 amended witness: the ten-element field's exact metadata, embedding
the 3-decimal-digit positional renderings of its minimum and maximum. -/
theorem C7_grid_range_metadata_witness :
    Threshold.get_metadata tGrid10 freqDay =
      finishMeta tGrid10 tGrid10.additional_metadata
        (tGrid10.operator.standard_name ++ "_thresholds")
        (tGrid10.operator.long_name ++ " "
          ++ (if aGrid10.data.length < 10 then
                npArrayRepr aGrid10.data ++ " " ++ pyOptRepr (some "degC")
              else
                "per grid cell values between "
                  ++ formatFloatPositional (listMin aGrid10.data) 3 ++ " "
                  ++ pyOptRepr (some "degC")
                  ++ " and "
                  ++ formatFloatPositional (listMax aGrid10.data) 3 ++ " "
                  ++ pyOptRepr (some "degC"))) :=
  C7_grid_range_metadata tGrid10 aGrid10 freqDay (some "degC") rfl rfl rfl
    (by decide)

end Icclim
